import Mathlib

/-!
Shallow embedding of the build-time configuration program in
`src/rust/libR-sys/build.rs` (functions `probe_r_paths` and `main`).

Modelling conventions:
  * Paths are plain strings; the platform path separator is abstracted as
    the single character `/` on every platform, while the platform itself
    (`cfg!(target_os = "windows")`) is an explicit boolean argument.
  * The environment read `env::var` is modelled as `Option String`
    (`none` = variable unset or not unicode).
  * The subprocess call `Command::new("R")....output()` is modelled as an
    input of type `Except String ProcOutput`: `Except.error` is the
    `io::Error` case that the source propagates with `?` (spawn failure or
    an I/O error while reading the pipes), and `ProcOutput` carries the exit
    status together with the already lossily UTF-8 decoded standard output
    (the source applies `String::from_utf8_lossy` to the raw bytes).
  * Fatal terminations are explicit constructors of result types: the
    `panic!` / `expect` / `unwrap` calls of the source become `panicked`
    outcomes carrying a message, and the `exit(1)` after a probe failure
    becomes an `earlyExit` outcome carrying the printed diagnostic and the
    exit code.
-/

/-- `struct InstallationPaths` of build.rs: home, include and library
directories of the local R installation. -/
structure InstallationPaths where
  r_home : String
  «include» : String
  library : String
deriving Repr, DecidableEq

/-- The two kinds of `io::Error` that `probe_r_paths` can return: an error
propagated from `Command::output()` by the `?` operator, and the
`Error::new(ErrorKind::Other, msg)` values built for missing output lines. -/
inductive RError where
  | ioError (msg : String)
  | otherError (msg : String)
deriving Repr, DecidableEq

/-- The message carried by an `RError`, used when the error is formatted
into the diagnostic that `main` prints. -/
def errMessage : RError → String
  | .ioError m => m
  | .otherError m => m

/-- `std::process::Output` as used by the source: the exit status and the
lossily decoded standard output. The source never reads `status`. -/
structure ProcOutput where
  status : Int
  stdout : String
deriving Repr, DecidableEq

/-- Whether the last character of `s` is the (abstracted) path separator. -/
def endsWithSep (s : String) : Bool :=
  match s.toList.getLast? with
  | some '/' => true
  | _ => false

/-- `Path::new(base).join(comp).to_str()` for a relative `comp`, with the
separator abstracted as `/`: a separator is inserted unless the base is
empty or already ends with a separator. -/
def pathJoin (base comp : String) : String :=
  if base = "" then comp
  else if endsWithSep base then base ++ comp
  else base ++ "/" ++ comp

/-- Rust `str::lines`: split at `\n`, strip one `\r` before each `\n`,
and do not produce a final empty line for a trailing terminator.
`cur` accumulates the current line in reverse. -/
def rustLinesGo (cur : List Char) : List Char → List String
  | [] => if cur.isEmpty then [] else [String.mk cur.reverse]
  | '\n' :: rest =>
    (match cur with
     | '\r' :: cur' => String.mk cur'.reverse
     | _ => String.mk cur.reverse) :: rustLinesGo [] rest
  | c :: rest => rustLinesGo (c :: cur) rest

/-- The list of lines of `s`, with Rust `str::lines` semantics. -/
def rustLines (s : String) : List String :=
  rustLinesGo [] s.toList

/-- The R expression passed with `-e`, chosen by platform: third reported
directory is `bin` on windows and `lib` elsewhere (build.rs lines 36-40). -/
def r_probe_script (windows : Bool) : String :=
  if windows then
    "cat(R.home(), R.home(\x27include\x27), R.home(\x27bin\x27), sep = \x27\\n\x27)"
  else
    "cat(R.home(), R.home(\x27include\x27), R.home(\x27lib\x27), sep = \x27\\n\x27)"

/-- The full argument vector passed to the `R` executable. -/
def r_command_args (windows : Bool) : List String :=
  ["-s", "-e", r_probe_script windows]

/-- `probe_r_paths` of build.rs. `r_home_env` is the value of `R_HOME`;
`r_output` is the (modelled) result of running `R` with
`r_command_args windows`, consulted only when `R_HOME` is unset. -/
def probe_r_paths (windows : Bool) (r_home_env : Option String)
    (r_output : Except String ProcOutput) : Except RError InstallationPaths :=
  match r_home_env with
  | some r_home =>
    -- When R_HOME is set, a standard path layout is assumed.
    .ok { r_home := r_home
          «include» := pathJoin r_home "include"
          library := pathJoin r_home (if windows then "bin" else "lib") }
  | none =>
    match r_output with
    | .error e => .error (.ioError e)
    | .ok rout =>
      match rustLines rout.stdout with
      | [] => .error (.otherError "Cannot find R home")
      | r_home :: rest =>
        match rest with
        | [] => .error (.otherError "Cannot find R include")
        | inc :: rest2 =>
          match rest2 with
          | [] => .error (.otherError "Cannot find R library")
          | library :: _ =>
            .ok { r_home := r_home, «include» := inc, library := library }

/-- Drop the literal `lit` from the front of `cs`, or fail. -/
def dropLit : List Char → List Char → Option (List Char)
  | [], cs => some cs
  | _ :: _, [] => none
  | l :: ls, c :: cs => if c = l then dropLit ls cs else none

/-- The literal head of the version regex `pub const R_VERSION ?: ?u32 = (\d+)`. -/
def versionLit : List Char := "pub const R_VERSION".toList

/-- The literal `u32 = ` part of the version regex. -/
def u32Lit : List Char := "u32 = ".toList

/-- Match the regex `pub const R_VERSION ?: ?u32 = (\d+)` at the start of
`cs`, returning the digits captured by the greedy `(\d+)` group. `\d` is
modelled as an ASCII decimal digit (the generated bindings are ASCII).
The two optional spaces are deterministic here: if consuming the optional
space fails the backtracking alternative fails as well, since a space is
neither `:` nor `u`. -/
def matchVersionAt (cs : List Char) : Option (List Char) :=
  match dropLit versionLit cs with
  | none => none
  | some cs1 =>
    let cs2? : Option (List Char) :=
      match cs1 with
      | ' ' :: ':' :: rest => some rest
      | ':' :: rest => some rest
      | _ => none
    match cs2? with
    | none => none
    | some cs2 =>
      let cs3 := match cs2 with
        | ' ' :: rest => rest
        | _ => cs2
      match dropLit u32Lit cs3 with
      | none => none
      | some cs4 =>
        let ds := cs4.takeWhile Char.isDigit
        if ds.isEmpty then none else some ds

/-- The capture of every match of the version regex, one entry per starting
position that matches, in order of starting position. -/
def versionCapturesFrom : List Char → List String
  | [] => []
  | c :: rest =>
    match matchVersionAt (c :: rest) with
    | some ds => String.mk ds :: versionCapturesFrom rest
    | none => versionCapturesFrom rest

/-- All captures of the version regex in `s`, leftmost first. -/
def allVersionCaptures (s : String) : List String :=
  versionCapturesFrom s.toList

/-- `version_matcher.captures(...)` of build.rs line 121: the capture of the
leftmost match of the version regex, if any. -/
def findVersionCapture (s : String) : Option String :=
  (allVersionCaptures s).head?

/-- Value of an ASCII digit string, most significant digit first. -/
def digitsToNat (ds : List Char) : Nat :=
  ds.foldl (fun acc c => acc * 10 + (c.toNat - 48)) 0

/-- `str::parse::<u32>()` on a string of ASCII digits: fails when empty or
when the value overflows `u32`. -/
def parseU32 (ds : List Char) : Option Nat :=
  if ds.isEmpty then none
  else if digitsToNat ds < 2 ^ 32 then some (digitsToNat ds) else none

/-- Outcome of the version post-processing step (build.rs lines 120-126). -/
inductive VersionStep where
  /-- A `cargo:r_version=v` metadata line is printed. -/
  | emit (v : Nat)
  /-- No line matches: `panic!("failed to find R_VERSION")`. -/
  | panicNoVersion
  /-- The capture does not parse as `u32`: `parse::<u32>().unwrap()` panics. -/
  | panicBadParse
deriving Repr, DecidableEq

/-- The version post-processing step of `main`: search the generated
bindings text for the version regex, parse the captured digits as `u32`,
and emit the number; panic when there is no match or the parse fails. -/
def versionStep (bindingsText : String) : VersionStep :=
  match findVersionCapture bindingsText with
  | none => .panicNoVersion
  | some ds =>
    match parseU32 ds.toList with
    | none => .panicBadParse
    | some v => .emit v

/-- The external inputs of `main`: platform, the two probe inputs, the
`TARGET` and `OUT_DIR` variables, the result of `bindgen`
(`Except.ok` carries the generated bindings text), whether the primary
write succeeds, the `LIBRSYS_BINDINGS_DIR` variable, and whether the
secondary write succeeds. -/
structure BuildEnv where
  windows : Bool
  r_home_env : Option String
  r_output : Except String ProcOutput
  target : Option String
  gen_result : Except String String
  out_dir : Option String
  primary_write_ok : Bool
  bindings_dir : Option String
  secondary_write_ok : Bool

/-- How `main` terminates. -/
inductive MainOutcome where
  /-- `println!` of a diagnostic to stdout followed by `exit(code)`. -/
  | earlyExit (diagnostic : String) (code : Nat)
  /-- Abrupt abnormal termination (`panic!`, `expect`, `unwrap`) with a
  diagnostic message. -/
  | panicked (msg : String)
  /-- Normal completion: the cargo metadata lines printed and the list of
  `(destination, content)` file writes performed. -/
  | finished (signals : List String) (writes : List (String × String))
deriving Repr, DecidableEq

/-- `main` of build.rs as a function of its external inputs. The order of
the steps follows the source: probe (early exit on failure), metadata
lines, `TARGET` lookup (`expect`), bindgen generation (`expect`), version
extraction (`panic!` / `unwrap`), primary write to `OUT_DIR` (`unwrap`
then `expect`), optional secondary write to `LIBRSYS_BINDINGS_DIR`
(`expect`). -/
def mainBuild (env : BuildEnv) : MainOutcome :=
  match probe_r_paths env.windows env.r_home_env env.r_output with
  | .error e => .earlyExit ("Problem locating local R instal: " ++ errMessage e) 1
  | .ok details =>
    let signals : List String :=
      [ "cargo:rustc-env=R_HOME=" ++ details.r_home
      , "cargo:r_home=" ++ details.r_home
      , "cargo:rustc-link-search=" ++ details.library
      , "cargo:rustc-link-lib=dylib=R"
      , "cargo:rerun-if-changed=build.rs"
      , "cargo:rerun-if-changed=wrapper.h" ]
    match env.target with
    | none => .panicked "Could not get the target triple"
    | some _ =>
      match env.gen_result with
      | .error _ => .panicked "Unable to generate bindings"
      | .ok bindingsText =>
        match versionStep bindingsText with
        | .panicNoVersion => .panicked "failed to find R_VERSION"
        | .panicBadParse => .panicked "called Result.unwrap on an Err value (ParseIntError)"
        | .emit version =>
          let signals := signals ++ ["cargo:r_version=" ++ toString version]
          match env.out_dir with
          | none => .panicked "called Result.unwrap on an Err value (VarError)"
          | some out_dir =>
            if env.primary_write_ok then
              match env.bindings_dir with
              | none => .finished signals [(pathJoin out_dir "bindings.rs", bindingsText)]
              | some alt =>
                if env.secondary_write_ok then
                  .finished signals
                    [ (pathJoin out_dir "bindings.rs", bindingsText)
                    , (pathJoin alt "bindings.rs", bindingsText) ]
                else
                  .panicked "Couldn't write bindings to output path specified by $LIBRSYS_BINDINGS_DIR!"
            else .panicked "Couldn't write bindings to default output path!"

/-- The arguments of the quoted `R.home(...)` calls occurring in a script
string, in order. Used to read back, from the probe script literals, which
directory name the subprocess branch asks R to report. -/
def quotedRHomeArgs : List Char → List String
  | [] => []
  | c :: rest =>
    match dropLit "R.home(\x27".toList (c :: rest) with
    | some after => String.mk (after.takeWhile (fun d => d ≠ '\x27')) :: quotedRHomeArgs rest
    | none => quotedRHomeArgs rest

/-- C1: when the runtime-home environment variable `R_HOME` is set to `H`,
`probe_r_paths` returns `InstallationPaths` with home `H`, include the path
join of `H` and `include`, and library the path join of `H` and `bin` on
windows or `lib` elsewhere; the result does not depend on the subprocess
input, so no subprocess is consulted; and for a non-empty `H` without a
trailing separator the joined paths are literally `H`, a separator, and the
component. -/
theorem c1_r_home_env_branch (w : Bool) (h : String)
    (out out' : Except String ProcOutput) :
    probe_r_paths w (some h) out =
      Except.ok { r_home := h, «include» := pathJoin h "include",
                  library := pathJoin h (if w then "bin" else "lib") }
    ∧ probe_r_paths w (some h) out = probe_r_paths w (some h) out'
    ∧ (h ≠ "" → endsWithSep h = false →
        pathJoin h "include" = h ++ "/" ++ "include"
        ∧ pathJoin h (if w then "bin" else "lib") =
            h ++ "/" ++ (if w then "bin" else "lib")) := by
  refine ⟨rfl, rfl, fun h1 h2 => ?_⟩
  constructor
  · simp [pathJoin, h1, h2]
  · simp [pathJoin, h1, h2]

/-- Witness for C1 at `R_HOME = /opt/foo` on a non-windows platform. -/
theorem c1_witness :
    probe_r_paths false (some "/opt/foo") (Except.ok ⟨0, ""⟩) =
      Except.ok { r_home := "/opt/foo", «include» := "/opt/foo/include",
                  library := "/opt/foo/lib" }
    ∧ probe_r_paths false (some "/opt/foo") (Except.ok ⟨0, ""⟩) =
        probe_r_paths false (some "/opt/foo") (Except.error "no R executable")
    ∧ pathJoin "/opt/foo" "include" = "/opt/foo" ++ "/" ++ "include" := by
  have h := c1_r_home_env_branch false "/opt/foo"
    (Except.ok ⟨0, ""⟩) (Except.error "no R executable")
  have h3 := h.2.2 (by decide) (by decide)
  refine ⟨?_, h.2.1, h3.1⟩
  rw [h.1]
  rfl

/-- C2: with `R_HOME` unset, for every subprocess standard output of at
least three lines the locator succeeds and returns the first line as home,
the second as include and the third as library, verbatim. -/
theorem c2_three_lines_verbatim (w : Bool) (st : Int) (out a b c : String)
    (rest : List String) (hl : rustLines out = a :: b :: c :: rest) :
    probe_r_paths w none (Except.ok ⟨st, out⟩) =
      Except.ok { r_home := a, «include» := b, library := c } := by
  simp [probe_r_paths, hl]

/-- Witness for C2: the end-to-end scenario of the specification, a mock
runtime printing three newline-terminated paths. -/
theorem c2_witness :
    probe_r_paths false none
        (Except.ok ⟨0, "/usr/lib/R\n/usr/lib/R/include\n/usr/lib/R/lib\n"⟩) =
      Except.ok { r_home := "/usr/lib/R", «include» := "/usr/lib/R/include",
                  library := "/usr/lib/R/lib" } :=
  c2_three_lines_verbatim false 0 "/usr/lib/R\n/usr/lib/R/include\n/usr/lib/R/lib\n"
    "/usr/lib/R" "/usr/lib/R/include" "/usr/lib/R/lib" [] (by rfl)

/-- C3: with `R_HOME` unset, a subprocess output of zero lines yields the
home error, exactly one line yields the include error, and exactly two
lines yields the library error. -/
theorem c3_missing_line_errors (w : Bool) (st : Int) (out : String) :
    (rustLines out = [] →
      probe_r_paths w none (Except.ok ⟨st, out⟩) =
        Except.error (.otherError "Cannot find R home"))
    ∧ (∀ a, rustLines out = [a] →
      probe_r_paths w none (Except.ok ⟨st, out⟩) =
        Except.error (.otherError "Cannot find R include"))
    ∧ (∀ a b, rustLines out = [a, b] →
      probe_r_paths w none (Except.ok ⟨st, out⟩) =
        Except.error (.otherError "Cannot find R library")) := by
  refine ⟨fun h0 => ?_, fun a h1 => ?_, fun a b h2 => ?_⟩ <;>
    simp [probe_r_paths, *]

/-- Witness for C3 at empty, one-line and two-line outputs. -/
theorem c3_witness :
    probe_r_paths false none (Except.ok ⟨0, ""⟩) =
      Except.error (.otherError "Cannot find R home")
    ∧ probe_r_paths false none (Except.ok ⟨0, "/usr/lib/R"⟩) =
      Except.error (.otherError "Cannot find R include")
    ∧ probe_r_paths false none (Except.ok ⟨0, "/usr/lib/R\n/usr/lib/R/include"⟩) =
      Except.error (.otherError "Cannot find R library") :=
  ⟨(c3_missing_line_errors false 0 "").1 (by rfl),
   (c3_missing_line_errors false 0 "/usr/lib/R").2.1 "/usr/lib/R" (by rfl),
   (c3_missing_line_errors false 0 "/usr/lib/R\n/usr/lib/R/include").2.2
     "/usr/lib/R" "/usr/lib/R/include" (by rfl)⟩

/-- C10: with `R_HOME` unset, a subprocess output of more than three lines
still succeeds with exactly the first three lines; every line after the
third is ignored and has no effect on the result. -/
theorem c10_extra_lines_ignored (w : Bool) (st st2 : Int) (out a b c : String)
    (rest : List String) (hl : rustLines out = a :: b :: c :: rest)
    (_hr : rest ≠ []) :
    probe_r_paths w none (Except.ok ⟨st, out⟩) =
      Except.ok { r_home := a, «include» := b, library := c }
    ∧ ∀ out2 rest2, rustLines out2 = a :: b :: c :: rest2 →
        probe_r_paths w none (Except.ok ⟨st2, out2⟩) =
          probe_r_paths w none (Except.ok ⟨st, out⟩) := by
  constructor
  · simp [probe_r_paths, hl]
  · intro out2 rest2 h2
    simp [probe_r_paths, hl, h2]

/-- Witness for C10: a four-line output gives the same result as the
corresponding three-line output. -/
theorem c10_witness :
    probe_r_paths false none (Except.ok ⟨0, "a\nb\nc\nextra\n"⟩) =
      Except.ok { r_home := "a", «include» := "b", library := "c" }
    ∧ probe_r_paths false none (Except.ok ⟨0, "a\nb\nc"⟩) =
        probe_r_paths false none (Except.ok ⟨0, "a\nb\nc\nextra\n"⟩) := by
  have h := c10_extra_lines_ignored false 0 0 "a\nb\nc\nextra\n" "a" "b" "c"
    ["extra"] (by rfl) (by decide)
  exact ⟨h.1, h.2 "a\nb\nc" [] (by rfl)⟩

/-- Counterexample to C4 as stated: with `R_HOME` unset, a subprocess that
exits with the unexpected non-zero status 1 but prints three lines does NOT
make the locator fail — the exit status is never examined. -/
theorem c4_counterexample :
    (1 : Int) ≠ 0
    ∧ probe_r_paths false none
        (Except.ok ⟨1, "/usr/lib/R\n/usr/lib/R/include\n/usr/lib/R/lib\n"⟩) =
      Except.ok { r_home := "/usr/lib/R", «include» := "/usr/lib/R/include",
                  library := "/usr/lib/R/lib" } := by
  exact ⟨by decide, by rfl⟩

/-- C4 amended: with `R_HOME` unset, the locator fails exactly when
`Command::output()` itself returns an error (executable not found, or an
I/O error reading the output); the subprocess exit status is ignored — the
result depends only on the captured standard output. -/
theorem c4_output_error_propagated (w : Bool) (e : String) (st st2 : Int)
    (out : String) :
    probe_r_paths w none (Except.error e) = Except.error (.ioError e)
    ∧ probe_r_paths w none (Except.ok ⟨st, out⟩) =
        probe_r_paths w none (Except.ok ⟨st2, out⟩) := by
  exact ⟨rfl, rfl⟩

/-- Counterexample to C5 as stated: a generated-source text that contains a
line whose version-constant declaration carries the literal 402500 but
whose extraction step emits 1, because an earlier line also matches the
pattern and the regex search returns the leftmost match. -/
theorem c5_counterexample :
    "402500" ∈
      allVersionCaptures
        "pub const R_VERSION: u32 = 1;\npub const R_VERSION: u32 = 402500;\n"
    ∧ versionStep
        "pub const R_VERSION: u32 = 1;\npub const R_VERSION: u32 = 402500;\n" =
      VersionStep.emit 1
    ∧ VersionStep.emit 1 ≠ VersionStep.emit 402500 := by
  refine ⟨by decide, by rfl, by decide⟩

/-- C5 amended: for every generated-source text in which the version
pattern matches exactly once, with captured literal 402500, the
post-processing step emits the integer 402500. -/
theorem c5_version_402500 (s : String)
    (h : allVersionCaptures s = ["402500"]) :
    versionStep s = VersionStep.emit 402500 := by
  simp [versionStep, findVersionCapture, h]
  rfl

/-- Witness for the amended C5 at a one-line text. -/
theorem c5_witness :
    allVersionCaptures "pub const R_VERSION: u32 = 402500;\n" = ["402500"]
    ∧ versionStep "pub const R_VERSION: u32 = 402500;\n" =
        VersionStep.emit 402500 :=
  ⟨by decide, c5_version_402500 "pub const R_VERSION: u32 = 402500;\n" (by decide)⟩

/-- C6: for every generated-source text with no match of the version
pattern, the post-processing step panics; it never emits a version (so it
never defaults to zero), and no run of `main` that generated such a text
ever reaches normal completion. -/
theorem c6_missing_version_fatal (text : String)
    (hn : allVersionCaptures text = []) :
    versionStep text = VersionStep.panicNoVersion
    ∧ (∀ v, versionStep text ≠ VersionStep.emit v)
    ∧ (∀ env : BuildEnv, env.gen_result = Except.ok text →
        ∀ sig wr, mainBuild env ≠ MainOutcome.finished sig wr) := by
  have hv : versionStep text = VersionStep.panicNoVersion := by
    simp [versionStep, findVersionCapture, hn]
  refine ⟨hv, fun v hcontra => by simp [hv] at hcontra, ?_⟩
  intro env hgen sig wr
  cases hp : probe_r_paths env.windows env.r_home_env env.r_output with
  | error e => simp [mainBuild, hp]
  | ok d =>
    cases ht : env.target with
    | none => simp [mainBuild, hp, ht]
    | some t => simp [mainBuild, hp, ht, hgen, hv]

/-- Witness for C6 at a text with no version-constant line. -/
theorem c6_witness :
    versionStep "no version constant here" = VersionStep.panicNoVersion
    ∧ versionStep "no version constant here" ≠ VersionStep.emit 0
    ∧ mainBuild ⟨false, some "/opt/R", Except.ok ⟨0, ""⟩,
        some "x86_64-unknown-linux-gnu", Except.ok "no version constant here",
        some "/out", true, none, true⟩ ≠ MainOutcome.finished [] [] := by
  have h := c6_missing_version_fatal "no version constant here" (by decide)
  exact ⟨h.1, h.2.1 0, h.2.2 _ (by rfl) [] []⟩

/-- C7: once `R_HOME`, `TARGET`, generation, version extraction, `OUT_DIR`
and the primary write have all succeeded: if `LIBRSYS_BINDINGS_DIR` is set
and the secondary write fails, `main` panics rather than finishing; if it
is set and the write succeeds, an identical copy of the bindings text is
written to both destinations; and if it is unset, the run finishes with
only the primary write, independently of whether a secondary write would
have succeeded. -/
theorem c7_secondary_write (w : Bool) (ro : Except String ProcOutput)
    (h tgt txt od alt : String) (v : Nat)
    (hv : versionStep txt = VersionStep.emit v) :
    mainBuild ⟨w, some h, ro, some tgt, Except.ok txt, some od, true, some alt, false⟩ =
      MainOutcome.panicked
        "Couldn't write bindings to output path specified by $LIBRSYS_BINDINGS_DIR!"
    ∧ (∃ sig, mainBuild
          ⟨w, some h, ro, some tgt, Except.ok txt, some od, true, some alt, true⟩ =
        MainOutcome.finished sig
          [(pathJoin od "bindings.rs", txt), (pathJoin alt "bindings.rs", txt)])
    ∧ (∀ b : Bool,
        mainBuild ⟨w, some h, ro, some tgt, Except.ok txt, some od, true, none, b⟩ =
          mainBuild ⟨w, some h, ro, some tgt, Except.ok txt, some od, true, none, true⟩
        ∧ ∃ sig, mainBuild
              ⟨w, some h, ro, some tgt, Except.ok txt, some od, true, none, b⟩ =
            MainOutcome.finished sig [(pathJoin od "bindings.rs", txt)]) := by
  refine ⟨?_,
    ⟨["cargo:rustc-env=R_HOME=" ++ h, "cargo:r_home=" ++ h,
      "cargo:rustc-link-search=" ++ pathJoin h (if w then "bin" else "lib"),
      "cargo:rustc-link-lib=dylib=R", "cargo:rerun-if-changed=build.rs",
      "cargo:rerun-if-changed=wrapper.h", "cargo:r_version=" ++ toString v], ?_⟩,
    fun b => ⟨?_,
    ⟨["cargo:rustc-env=R_HOME=" ++ h, "cargo:r_home=" ++ h,
      "cargo:rustc-link-search=" ++ pathJoin h (if w then "bin" else "lib"),
      "cargo:rustc-link-lib=dylib=R", "cargo:rerun-if-changed=build.rs",
      "cargo:rerun-if-changed=wrapper.h", "cargo:r_version=" ++ toString v], ?_⟩⟩⟩ <;>
    simp [mainBuild, probe_r_paths, hv]

/-- Witness for C7 with a bindings text whose version extraction succeeds. -/
theorem c7_witness :
    mainBuild ⟨false, some "/opt/R", Except.ok ⟨0, ""⟩, some "t",
        Except.ok "pub const R_VERSION: u32 = 402500;", some "/out", true,
        some "/alt", false⟩ =
      MainOutcome.panicked
        "Couldn't write bindings to output path specified by $LIBRSYS_BINDINGS_DIR!"
    ∧ (∃ sig, mainBuild ⟨false, some "/opt/R", Except.ok ⟨0, ""⟩, some "t",
          Except.ok "pub const R_VERSION: u32 = 402500;", some "/out", true,
          some "/alt", true⟩ =
        MainOutcome.finished sig
          [("/out/bindings.rs", "pub const R_VERSION: u32 = 402500;"),
           ("/alt/bindings.rs", "pub const R_VERSION: u32 = 402500;")]) := by
  have h := c7_secondary_write false (Except.ok ⟨0, ""⟩) "/opt/R" "t"
    "pub const R_VERSION: u32 = 402500;" "/out" "/alt" 402500 (by rfl)
  exact ⟨h.1, h.2.1⟩

/-- C8: a probe failure makes `main` print a diagnostic to stdout and take
the explicit early exit with code 1; every other fatal condition — missing
target triple, bindings-generation failure, missing version pattern, and a
failed primary write — instead ends in an abrupt panic with a diagnostic
message. -/
theorem c8_exit_policy (env : BuildEnv) :
    (∀ e, probe_r_paths env.windows env.r_home_env env.r_output = Except.error e →
        mainBuild env =
          MainOutcome.earlyExit ("Problem locating local R instal: " ++ errMessage e) 1)
    ∧ (∀ d, probe_r_paths env.windows env.r_home_env env.r_output = Except.ok d →
        env.target = none →
        mainBuild env = MainOutcome.panicked "Could not get the target triple")
    ∧ (∀ d tgt g, probe_r_paths env.windows env.r_home_env env.r_output = Except.ok d →
        env.target = some tgt → env.gen_result = Except.error g →
        mainBuild env = MainOutcome.panicked "Unable to generate bindings")
    ∧ (∀ d tgt txt, probe_r_paths env.windows env.r_home_env env.r_output = Except.ok d →
        env.target = some tgt → env.gen_result = Except.ok txt →
        versionStep txt = VersionStep.panicNoVersion →
        mainBuild env = MainOutcome.panicked "failed to find R_VERSION")
    ∧ (∀ d tgt txt v od,
        probe_r_paths env.windows env.r_home_env env.r_output = Except.ok d →
        env.target = some tgt → env.gen_result = Except.ok txt →
        versionStep txt = VersionStep.emit v →
        env.out_dir = some od → env.primary_write_ok = false →
        mainBuild env = MainOutcome.panicked "Couldn't write bindings to default output path!") := by
  refine ⟨fun e he => ?_, fun d hd ht => ?_, fun d tgt g hd ht hg => ?_,
    fun d tgt txt hd ht hg hv => ?_, fun d tgt txt v od hd ht hg hv ho hw => ?_⟩ <;>
    simp [mainBuild, *]

/-- Witness for C8 at one concrete environment for each fatal condition. -/
theorem c8_witness :
    mainBuild ⟨false, none, Except.error "No such file or directory", some "t",
        Except.ok "", some "/out", true, none, true⟩ =
      MainOutcome.earlyExit
        "Problem locating local R instal: No such file or directory" 1
    ∧ mainBuild ⟨false, some "/opt/R", Except.ok ⟨0, ""⟩, none,
        Except.ok "", some "/out", true, none, true⟩ =
      MainOutcome.panicked "Could not get the target triple"
    ∧ mainBuild ⟨false, some "/opt/R", Except.ok ⟨0, ""⟩, some "t",
        Except.error "clang failed", some "/out", true, none, true⟩ =
      MainOutcome.panicked "Unable to generate bindings"
    ∧ mainBuild ⟨false, some "/opt/R", Except.ok ⟨0, ""⟩, some "t",
        Except.ok "junk", some "/out", true, none, true⟩ =
      MainOutcome.panicked "failed to find R_VERSION"
    ∧ mainBuild ⟨false, some "/opt/R", Except.ok ⟨0, ""⟩, some "t",
        Except.ok "pub const R_VERSION: u32 = 402500;", some "/out", false,
        none, true⟩ =
      MainOutcome.panicked "Couldn't write bindings to default output path!" := by
  refine ⟨(c8_exit_policy _).1 (.ioError "No such file or directory") (by rfl),
    (c8_exit_policy _).2.1 _ (by rfl) (by rfl),
    (c8_exit_policy _).2.2.1 _ "t" "clang failed" (by rfl) (by rfl) (by rfl),
    (c8_exit_policy _).2.2.2.1 _ "t" "junk" (by rfl) (by rfl) (by rfl) (by decide),
    (c8_exit_policy _).2.2.2.2 _ "t" "pub const R_VERSION: u32 = 402500;" 402500
      "/out" (by rfl) (by rfl) (by rfl) (by rfl) (by rfl) (by rfl)⟩

/-- C9: the platform selection of the third path component is consistent
between the two branches of `probe_r_paths`: the directory name that the
probe script asks R to report as its third line (read back from the script
literal) equals the directory name that the environment-variable branch
joins to the home path — `bin` on windows, `lib` elsewhere. -/
theorem c9_branch_consistency (w : Bool) :
    (quotedRHomeArgs (r_probe_script w).toList).get? 1 =
      some (if w then "bin" else "lib")
    ∧ (∀ h out p, probe_r_paths w (some h) out = Except.ok p →
        p.library = pathJoin h (if w then "bin" else "lib")) := by
  constructor
  · cases w <;> decide
  · intro h out p hp
    have hd : probe_r_paths w (some h) out =
        Except.ok { r_home := h, «include» := pathJoin h "include",
                    library := pathJoin h (if w then "bin" else "lib") } := rfl
    rw [hd] at hp
    injection hp with hpp
    rw [← hpp]

/-- Witness for C9 on both platforms. -/
theorem c9_witness :
    (quotedRHomeArgs (r_probe_script true).toList).get? 1 = some "bin"
    ∧ (quotedRHomeArgs (r_probe_script false).toList).get? 1 = some "lib"
    ∧ ({ r_home := "/opt/R", «include» := "/opt/R/include",
         library := "/opt/R/bin" } : InstallationPaths).library =
        pathJoin "/opt/R" "bin" := by
  refine ⟨(c9_branch_consistency true).1, (c9_branch_consistency false).1, ?_⟩
  exact (c9_branch_consistency true).2 "/opt/R" (Except.ok ⟨0, ""⟩)
    { r_home := "/opt/R", «include» := "/opt/R/include", library := "/opt/R/bin" }
    (by rfl)
